import Mathlib

/-!
# Cinephile-Online: verification of the data-access layer

Shallow embedding of `src/models.py`, `src/data_manager.py` and the JSON
handlers of `src/app.py`.  The relational store is modelled as lists of rows;
SQLAlchemy sessions become explicit state passing, and Boolean flags inject
store failures at the points where the source wraps a write in `try/except`
(an exception there triggers `db.session.rollback()` and an error return).
-/

namespace Cinephile

/-- Row of table `users` (`models.py`, class `User`). -/
structure User where
  id : Nat
  user_name : String
  deriving DecidableEq, Repr

/-- Row of table `movies` (`models.py`, class `Movie`).  The `title` column is
`nullable=False`; it is nevertheless `Option` here because `add_movie` builds
the row from `movie_data.get('Title')`, which can be absent — inserting `none`
then fails at commit (NOT NULL violation), which `add_movie` reflects. -/
structure Movie where
  id : Nat
  title : Option String
  director : Option String
  year_of_release : Option String
  poster_url : Option String
  deriving DecidableEq, Repr

/-- Row of table `user_favourite_movies` (`models.py`, class `FavouriteMovie`);
composite primary key `(user_id, movie_id)`. -/
structure FavouriteMovie where
  user_id : Nat
  movie_id : Nat
  deriving DecidableEq, Repr

/-- The relational store: the three tables plus the autoincrement counters
that assign surrogate integer primary keys on insert. -/
structure DBState where
  users : List User
  movies : List Movie
  favourites : List FavouriteMovie
  next_user_id : Nat
  next_movie_id : Nat
  deriving DecidableEq, Repr

/-- OMDb JSON payload as consumed by `add_movie`: only the keys the code reads
via `.get(...)` are modelled, each `Option` because `dict.get` yields `None`
for an absent key.  A payload with `Response == 'False'` is the provider's
explicit "no such title" indicator. -/
structure OmdbPayload where
  field_response : Option String
  field_title : Option String
  field_director : Option String
  field_year : Option String
  field_poster : Option String
  deriving DecidableEq, Repr

/-- SQLAlchemy `Result.scalar_one_or_none()`: `some none` for no row,
`some (some a)` for exactly one row, and `none` when more than one row
matches (the call raises `MultipleResultsFound`). -/
def scalarOneOrNone : List α → Option (Option α)
  | [] => some none
  | [a] => some (some a)
  | _ => none

/-- Result of `DataManager.add_movie`: `ok m` models `return movie_to_favourite`,
`err` models `return None`, and `raised` models an uncaught
`MultipleResultsFound` escaping from the first lookup, which is not inside
any `try` block. -/
inductive AddOutcome where
  | ok (m : Movie)
  | err
  | raised
  deriving DecidableEq, Repr

/-- Second half of `DataManager.add_movie` (`data_manager.py` lines 139–163):
the `try` block that looks up an existing `FavouriteMovie` link, returns the
candidate movie unchanged when the link already exists ("already a favourite",
logged as a warning, no action taken), and otherwise inserts the link and
commits.  `favCommitFails` injects a store failure at that commit; any
exception inside the block (a lookup raising `MultipleResultsFound` included)
is caught, rolled back and reported as `None` (`err`). -/
def link_favourite (st : DBState) (user_id : Nat) (cand : Movie)
    (favCommitFails : Bool) : AddOutcome × DBState :=
  match scalarOneOrNone (st.favourites.filter
      (fun f => f.user_id == user_id && f.movie_id == cand.id)) with
  | none => (AddOutcome.err, st)
  | some (some _) => (AddOutcome.ok cand, st)
  | some none =>
    if favCommitFails then (AddOutcome.err, st)
    else (AddOutcome.ok cand,
      { st with favourites := st.favourites ++ [⟨user_id, cand.id⟩] })

/-- The `Movie` row `add_movie` builds from a fetched payload
(`data_manager.py` lines 123–128), with the autoincrement id it receives at
commit. -/
def newMovieRow (st : DBState) (movie_data : OmdbPayload) : Movie :=
  { id := st.next_movie_id
    title := movie_data.field_title
    director := movie_data.field_director
    year_of_release := movie_data.field_year
    poster_url := movie_data.field_poster }

/-- `DataManager.add_movie` (`data_manager.py` lines 95–163).  `fetch` is the
value `self._make_omdb_request(movie_title)` returns for this call: `none`
models a transport failure or non-2xx status (the method logs the error and
returns `None` without raising), `some p` the parsed JSON payload.  The title
lookup is an exact-equality filter (`filter_by(title=movie_title)`); a stored
NULL title matches no string.  When no movie with that exact title exists and
the payload is usable, a new `Movie` row built from the payload fields is
inserted and committed on its own (line 132), before the favourite link is
attempted; `movieCommitFails` injects a store failure at that first commit,
and a `none` title (NOT NULL column) makes it fail as well.  The new row's id
models the autoincrement primary key. -/
def add_movie (st : DBState) (user_id : Nat) (movie_title : String)
    (fetch : Option OmdbPayload) (movieCommitFails favCommitFails : Bool) :
    AddOutcome × DBState :=
  match scalarOneOrNone (st.movies.filter (fun m => m.title == some movie_title)) with
  | none => (AddOutcome.raised, st)
  | some (some existing_movie) => link_favourite st user_id existing_movie favCommitFails
  | some none =>
    match fetch with
    | none => (AddOutcome.err, st)
    | some movie_data =>
      if movie_data.field_response == some "False" then (AddOutcome.err, st)
      else if movieCommitFails || (newMovieRow st movie_data).title == none then
        (AddOutcome.err, st)
      else
        link_favourite
          { st with
              movies := st.movies ++ [newMovieRow st movie_data]
              next_movie_id := st.next_movie_id + 1 }
          user_id (newMovieRow st movie_data) favCommitFails

/-- `DataManager.update_movie` (`data_manager.py` lines 166–191): one UPDATE
of `Movie.title` by id inside a single `try`; zero rows affected means
rollback and `False`, otherwise commit and `True`.  `commitFails` injects a
store failure at the execute or the commit (caught: rollback, `False`, no
change visible). -/
def update_movie (st : DBState) (movie_id : Nat) (new_title : String)
    (commitFails : Bool) : Bool × DBState :=
  if commitFails then (false, st)
  else if (st.movies.filter (fun m => m.id == movie_id)).length == 0 then (false, st)
  else
    let moviesAfter := st.movies.map
      (fun m => if m.id == movie_id then { m with title := some new_title } else m)
    (true, { st with movies := moviesAfter })

/-- `DataManager.delete_movie` (`data_manager.py` lines 194–231): delete the
`FavouriteMovie` link scoped to `(user_id, movie_id)`; zero rows affected
means rollback and `False`.  Otherwise, still inside the same transaction,
check whether any link for `movie_id` remains (the pending delete is visible
to the session) and, when none does, delete the `Movie` row too; then commit
once.  `commitFails` injects a store failure before that single commit
(caught: rollback, `False`, no change visible). -/
def delete_movie (st : DBState) (user_id movie_id : Nat)
    (commitFails : Bool) : Bool × DBState :=
  let remaining := st.favourites.filter
    (fun f => !(f.movie_id == movie_id && f.user_id == user_id))
  if remaining.length == st.favourites.length then (false, st)
  else if commitFails then (false, st)
  else
    let moviesAfter :=
      if (remaining.filter (fun f => f.movie_id == movie_id)).isEmpty then
        st.movies.filter (fun m => !(m.id == movie_id))
      else st.movies
    (true, { st with favourites := remaining, movies := moviesAfter })

/-- `DataManager.create_user` (`data_manager.py` lines 37–55): one insert and
commit inside a `try`; on exception, rollback and `None`.  No validation of
`name` happens here — the empty string is inserted like any other name. -/
def create_user (st : DBState) (name : String) (commitFails : Bool) :
    Option User × DBState :=
  if commitFails then (none, st)
  else
    let new_user : User := { id := st.next_user_id, user_name := name }
    (some new_user,
      { st with
          users := st.users ++ [new_user]
          next_user_id := st.next_user_id + 1 })

/-- Comparison used by `ORDER BY Movie.title` (ascending, SQL NULLs first). -/
def titleLe (a b : Movie) : Bool :=
  match a.title, b.title with
  | none, _ => true
  | some _, none => false
  | some x, some y => decide (x ≤ y)

/-- `DataManager.get_movies` (`data_manager.py` lines 73–92): SELECT `Movie`
JOIN `FavouriteMovie` ON `movie_id == Movie.id` WHERE `user_id == user_id`
ORDER BY `Movie.title` — one output row per matching (link, movie) pair.  The
`except` branch (a store error makes the method return `None`) needs no
failure injection here: the operation is a pure read and no claim concerns
its failure path. -/
def get_movies (st : DBState) (user_id : Nat) : List Movie :=
  ((st.favourites.filter (fun f => f.user_id == user_id)).flatMap
    (fun f => st.movies.filter (fun m => m.id == f.movie_id))).mergeSort titleLe

/-- Responses the JSON routes in `app.py` distinguish: `badRequest` is a
plain-text 400, `jsonSuccess` is `{'status': 'success'}, 200`, `jsonErr` is
`{'status': 'error'}, 200`. -/
inductive HttpResponse where
  | badRequest
  | jsonSuccess
  | jsonErr
  deriving DecidableEq, Repr

/-- `POST /users` handler `users` (`app.py` lines 41–63).  `name` is
`data.get('name')` from the JSON body, `none` when the key is missing.  Only
`name is None` is rejected with a 400; any present string — the empty string
included — is passed straight to `create_user`. -/
def users_post (st : DBState) (name : Option String) (createFails : Bool) :
    HttpResponse × DBState :=
  match name with
  | none => (HttpResponse.badRequest, st)
  | some n =>
    match create_user st n createFails with
    | (some _, st2) => (HttpResponse.jsonSuccess, st2)
    | (none, st2) => (HttpResponse.jsonErr, st2)

/-- `POST /users/<user_id>/movies/<movie_id>/update` handler `update`
(`app.py` lines 107–133).  `user_id` is bound by the route but never used by
the handler body, which calls `data_manager.update_movie(movie_id, new_title)`
directly. -/
def update_post (st : DBState) (user_id movie_id : Nat)
    (new_title : Option String) (commitFails : Bool) : HttpResponse × DBState :=
  match new_title with
  | none => (HttpResponse.badRequest, st)
  | some t =>
    match update_movie st movie_id t commitFails with
    | (true, st2) => (HttpResponse.jsonSuccess, st2)
    | (false, st2) => (HttpResponse.jsonErr, st2)

/-! ## Concrete stores and payloads for scenario runs -/

/-- One registered user, no movies, no favourites. -/
def aliceStore : DBState :=
  { users := [⟨1, "Alice"⟩]
    movies := []
    favourites := []
    next_user_id := 2
    next_movie_id := 0 }

/-- Two registered users, no movies, no favourites. -/
def aliceBobStore : DBState :=
  { users := [⟨1, "Alice"⟩, ⟨2, "Bob"⟩]
    movies := []
    favourites := []
    next_user_id := 3
    next_movie_id := 0 }

/-- An OMDb payload for a successful lookup whose canonical `Title` is
`"Inception"`. -/
def inceptionPayload : OmdbPayload :=
  { field_response := some "True"
    field_title := some "Inception"
    field_director := some "Christopher Nolan"
    field_year := some "2010"
    field_poster := some "url" }

/-- The movie row `inceptionPayload` produces at autoincrement id 0. -/
def inceptionMovie : Movie :=
  { id := 0
    title := some "Inception"
    director := some "Christopher Nolan"
    year_of_release := some "2010"
    poster_url := some "url" }

/-- `aliceStore` after user 1 favorited `inceptionMovie`. -/
def inceptionStore : DBState :=
  { users := [⟨1, "Alice"⟩]
    movies := [inceptionMovie]
    favourites := [⟨1, 0⟩]
    next_user_id := 2
    next_movie_id := 1 }

/-- A store where users 1 and 2 both favorited `inceptionMovie`. -/
def twoFanStore : DBState :=
  { users := [⟨1, "Alice"⟩, ⟨2, "Bob"⟩]
    movies := [inceptionMovie]
    favourites := [⟨1, 0⟩, ⟨2, 0⟩]
    next_user_id := 3
    next_movie_id := 1 }

/-- `twoFanStore` after user 1 removed their favourite: user 2 still links to
the movie, so the movie row survives. -/
def bobFanStore : DBState :=
  { users := [⟨1, "Alice"⟩, ⟨2, "Bob"⟩]
    movies := [inceptionMovie]
    favourites := [⟨2, 0⟩]
    next_user_id := 3
    next_movie_id := 1 }

/-! ## Basic facts about the lookup primitive -/

theorem scalarOneOrNone_eq_some_some {α : Type} {l : List α} {a : α} :
    scalarOneOrNone l = some (some a) ↔ l = [a] := by
  rcases l with _ | ⟨x, _ | ⟨y, rest⟩⟩ <;> simp [scalarOneOrNone]

theorem scalarOneOrNone_eq_some_none {α : Type} {l : List α} :
    scalarOneOrNone l = some none ↔ l = [] := by
  rcases l with _ | ⟨x, _ | ⟨y, rest⟩⟩ <;> simp [scalarOneOrNone]

/-- A `FavouriteMovie` row passing the `(user_id, movie_id)` equality filter is
that pair: the link entity has no other attributes. -/
theorem fav_eq_of_pred {u mid : Nat} {f : FavouriteMovie}
    (h : (f.user_id == u && f.movie_id == mid) = true) : f = ⟨u, mid⟩ := by
  cases f
  simp_all

/-! ## Unfolding lemmas: one per control path of `add_movie` / `link_favourite` -/

theorem link_favourite_eq_of_raised {st : DBState} {u : Nat} {cand : Movie} {fcf : Bool}
    (hs : scalarOneOrNone (st.favourites.filter
        (fun f => f.user_id == u && f.movie_id == cand.id)) = none) :
    link_favourite st u cand fcf = (AddOutcome.err, st) := by
  unfold link_favourite
  rw [hs]

theorem link_favourite_eq_of_found {st : DBState} {u : Nat} {cand : Movie} {fcf : Bool}
    {f0 : FavouriteMovie}
    (hs : scalarOneOrNone (st.favourites.filter
        (fun f => f.user_id == u && f.movie_id == cand.id)) = some (some f0)) :
    link_favourite st u cand fcf = (AddOutcome.ok cand, st) := by
  unfold link_favourite
  rw [hs]

theorem link_favourite_eq_of_miss {st : DBState} {u : Nat} {cand : Movie} {fcf : Bool}
    (hs : scalarOneOrNone (st.favourites.filter
        (fun f => f.user_id == u && f.movie_id == cand.id)) = some none) :
    link_favourite st u cand fcf =
      if fcf then (AddOutcome.err, st)
      else (AddOutcome.ok cand,
        { st with favourites := st.favourites ++ [⟨u, cand.id⟩] }) := by
  unfold link_favourite
  rw [hs]

theorem add_movie_eq_of_raised {st : DBState} {u : Nat} {t : String}
    {fetch : Option OmdbPayload} {mcf fcf : Bool}
    (hs : scalarOneOrNone (st.movies.filter (fun m => m.title == some t)) = none) :
    add_movie st u t fetch mcf fcf = (AddOutcome.raised, st) := by
  unfold add_movie
  rw [hs]

theorem add_movie_eq_of_found {st : DBState} {u : Nat} {t : String}
    {fetch : Option OmdbPayload} {mcf fcf : Bool} {em : Movie}
    (hs : scalarOneOrNone (st.movies.filter (fun m => m.title == some t))
        = some (some em)) :
    add_movie st u t fetch mcf fcf = link_favourite st u em fcf := by
  unfold add_movie
  rw [hs]

theorem add_movie_eq_of_miss_nofetch {st : DBState} {u : Nat} {t : String}
    {mcf fcf : Bool}
    (hs : scalarOneOrNone (st.movies.filter (fun m => m.title == some t)) = some none) :
    add_movie st u t none mcf fcf = (AddOutcome.err, st) := by
  unfold add_movie
  rw [hs]

theorem add_movie_eq_of_miss_notfound {st : DBState} {u : Nat} {t : String}
    {p : OmdbPayload} {mcf fcf : Bool}
    (hs : scalarOneOrNone (st.movies.filter (fun m => m.title == some t)) = some none)
    (hresp : (p.field_response == some "False") = true) :
    add_movie st u t (some p) mcf fcf = (AddOutcome.err, st) := by
  unfold add_movie
  rw [hs]
  simp only [hresp, if_true]

theorem add_movie_eq_of_miss_commitfail {st : DBState} {u : Nat} {t : String}
    {p : OmdbPayload} {mcf fcf : Bool}
    (hs : scalarOneOrNone (st.movies.filter (fun m => m.title == some t)) = some none)
    (hresp : (p.field_response == some "False") = false)
    (hc : (mcf || (newMovieRow st p).title == none) = true) :
    add_movie st u t (some p) mcf fcf = (AddOutcome.err, st) := by
  unfold add_movie
  rw [hs]
  simp [hresp, hc]

theorem add_movie_eq_of_miss_inserted {st : DBState} {u : Nat} {t : String}
    {p : OmdbPayload} {mcf fcf : Bool}
    (hs : scalarOneOrNone (st.movies.filter (fun m => m.title == some t)) = some none)
    (hresp : (p.field_response == some "False") = false)
    (hc : (mcf || (newMovieRow st p).title == none) = false) :
    add_movie st u t (some p) mcf fcf =
      link_favourite
        { st with
            movies := st.movies ++ [newMovieRow st p]
            next_movie_id := st.next_movie_id + 1 }
        u (newMovieRow st p) fcf := by
  unfold add_movie
  rw [hs]
  simp [hresp, hc]

/-- The single element of a one-element filter result satisfies the filter. -/
theorem pred_of_filter_eq_singleton {α : Type} {l : List α} {p : α → Bool} {a : α}
    (h : l.filter p = [a]) : p a = true := by
  have hmem : a ∈ l.filter p := by rw [h]; exact List.mem_singleton.mpr rfl
  exact (List.mem_filter.mp hmem).2

/-! ## Anatomy of a successful `add_movie` -/

/-- A successful `link_favourite` returns the candidate unchanged, writes at
most the one link row `⟨u, cand.id⟩` (and only when that link was absent),
and touches nothing else. -/
theorem link_favourite_ok {st st1 : DBState} {u : Nat} {cand m : Movie} {fcf : Bool}
    (h : link_favourite st u cand fcf = (AddOutcome.ok m, st1)) :
    m = cand ∧ st1.movies = st.movies ∧ st1.users = st.users ∧
    st1.favourites.filter (fun f => f.user_id == u && f.movie_id == cand.id)
      = [⟨u, cand.id⟩] ∧
    (st1.favourites = st.favourites ∨
      (st1.favourites = st.favourites ++ [⟨u, cand.id⟩] ∧
        st.favourites.filter (fun f => f.user_id == u && f.movie_id == cand.id) = [])) := by
  rcases hs : scalarOneOrNone (st.favourites.filter
      (fun f => f.user_id == u && f.movie_id == cand.id)) with _ | ⟨_ | f0⟩
  · rw [link_favourite_eq_of_raised hs] at h
    simp at h
  · -- no existing link: insert (or fail when the commit fails)
    rw [link_favourite_eq_of_miss hs] at h
    cases fcf with
    | true => simp at h
    | false =>
      simp only [if_neg (by simp : ¬(false = true)), Prod.mk.injEq,
        AddOutcome.ok.injEq] at h
      obtain ⟨hm, hst⟩ := h
      subst hm
      subst hst
      refine ⟨rfl, rfl, rfl, ?_, Or.inr ⟨rfl, scalarOneOrNone_eq_some_none.mp hs⟩⟩
      simp [List.filter_append, scalarOneOrNone_eq_some_none.mp hs]
  · -- link already present: idempotent, no action taken
    rw [link_favourite_eq_of_found hs] at h
    simp only [Prod.mk.injEq, AddOutcome.ok.injEq] at h
    obtain ⟨hm, hst⟩ := h
    subst hm
    subst hst
    have hfil := scalarOneOrNone_eq_some_some.mp hs
    have hpred := pred_of_filter_eq_singleton hfil
    have hf0 : f0 = (⟨u, cand.id⟩ : FavouriteMovie) := fav_eq_of_pred hpred
    exact ⟨rfl, rfl, rfl, hf0 ▸ hfil, Or.inl rfl⟩

/-- Anatomy of a successful `add_movie` whose returned movie is stored under
the requested title `t`: the store ends with exactly the row `m` under title
`t` and exactly the link `⟨u, m.id⟩`; the favourites table either was reused
as-is or received exactly that one link, and the movies table either was
reused as-is or received exactly the row `m`. -/
theorem add_movie_ok_state {st0 st1 : DBState} {u : Nat} {t : String}
    {fetch : Option OmdbPayload} {mcf fcf : Bool} {m : Movie}
    (h : add_movie st0 u t fetch mcf fcf = (AddOutcome.ok m, st1))
    (ht : m.title = some t) :
    st1.movies.filter (fun x => x.title == some t) = [m] ∧
    st1.favourites.filter (fun f => f.user_id == u && f.movie_id == m.id)
      = [⟨u, m.id⟩] ∧
    (st1.favourites = st0.favourites ∨
      (st1.favourites = st0.favourites ++ [⟨u, m.id⟩] ∧
        st0.favourites.filter (fun f => f.user_id == u && f.movie_id == m.id) = [])) ∧
    st1.users = st0.users := by
  rcases hs : scalarOneOrNone (st0.movies.filter (fun x => x.title == some t))
    with _ | ⟨_ | em⟩
  · rw [add_movie_eq_of_raised hs] at h
    simp at h
  · -- no movie with title `t` stored: fetch path
    rcases fetch with _ | p
    · rw [add_movie_eq_of_miss_nofetch hs] at h
      simp at h
    · cases hresp : (p.field_response == some "False") with
      | true =>
        rw [add_movie_eq_of_miss_notfound hs hresp] at h
        simp at h
      | false =>
        cases hc : (mcf || (newMovieRow st0 p).title == none) with
        | true =>
          rw [add_movie_eq_of_miss_commitfail hs hresp hc] at h
          simp at h
        | false =>
          rw [add_movie_eq_of_miss_inserted hs hresp hc] at h
          obtain ⟨hm, hmov, husers, hfil, hdisj⟩ := link_favourite_ok h
          subst hm
          have hbase := scalarOneOrNone_eq_some_none.mp hs
          constructor
          · rw [hmov]
            simp only [List.filter_append, hbase, List.nil_append]
            simp [List.filter, ht]
          · exact ⟨hfil, hdisj, husers⟩
  · -- movie with title `t` already stored: reuse it
    rw [add_movie_eq_of_found hs] at h
    obtain ⟨hm, hmov, husers, hfil, hdisj⟩ := link_favourite_ok h
    subst hm
    exact ⟨hmov ▸ scalarOneOrNone_eq_some_some.mp hs, hfil, hdisj, husers⟩

/-- `link_favourite` never touches the movies table. -/
theorem link_favourite_movies_unchanged (st : DBState) (u : Nat) (cand : Movie)
    (b : Bool) : (link_favourite st u cand b).2.movies = st.movies := by
  rcases hs : scalarOneOrNone (st.favourites.filter
      (fun f => f.user_id == u && f.movie_id == cand.id)) with _ | ⟨_ | f0⟩
  · rw [link_favourite_eq_of_raised hs]
  · rw [link_favourite_eq_of_miss hs]
    cases b <;> simp
  · rw [link_favourite_eq_of_found hs]

/-! ## Claim theorems -/

/-- **C5** (confirmed).  With no Movie row titled `t` in the store, a fetcher
outcome of `TransientError` (modelled by `none`: transport failure or non-2xx
status, which `_make_omdb_request` logs and reports as the value `None`
without raising) or `NotFound` (a payload whose `Response` field is
`'False'`) makes `add_movie` fail, and the store is returned unchanged: no
Movie row and no Favorite row are written. -/
theorem c5_fetcher_failure_writes_nothing (st : DBState) (u : Nat) (t : String)
    (fetch : Option OmdbPayload) (mcf fcf : Bool)
    (hmov : st.movies.filter (fun m => m.title == some t) = [])
    (hfail : fetch = none ∨ ∃ p, fetch = some p ∧ p.field_response = some "False") :
    add_movie st u t fetch mcf fcf = (AddOutcome.err, st) := by
  have hs : scalarOneOrNone (st.movies.filter (fun m => m.title == some t))
      = some none := scalarOneOrNone_eq_some_none.mpr hmov
  rcases hfail with hf | ⟨p, hf, hresp⟩
  · subst hf
    exact add_movie_eq_of_miss_nofetch hs
  · subst hf
    exact add_movie_eq_of_miss_notfound hs (by simp [hresp])

theorem c5_witness :
    add_movie aliceStore 7 "Dracula" none false false = (AddOutcome.err, aliceStore) :=
  c5_fetcher_failure_writes_nothing aliceStore 7 "Dracula" none false false
    (by decide) (Or.inl rfl)

/-- **C6** (confirmed).  When no `Favorite(u, mid)` link exists (the scoped
DELETE affects zero rows), `delete_movie` reports failure and returns the
store completely unchanged: no Favorite, Movie or User row is created,
deleted or modified. -/
theorem c6_remove_missing_link_unchanged (st : DBState) (u mid : Nat) (cf : Bool)
    (h : st.favourites.filter (fun f => f.movie_id == mid && f.user_id == u) = []) :
    delete_movie st u mid cf = (false, st) := by
  have hrem : st.favourites.filter (fun f => !(f.movie_id == mid && f.user_id == u))
      = st.favourites := by
    rw [List.filter_eq_self]
    intro a ha
    have hnot := List.filter_eq_nil_iff.mp h a ha
    simp only [Bool.not_eq_true] at hnot
    simp [hnot]
  unfold delete_movie
  rw [hrem]
  simp

theorem c6_witness :
    delete_movie inceptionStore 2 0 false = (false, inceptionStore) :=
  c6_remove_missing_link_unchanged inceptionStore 2 0 false (by decide)

/-- **C3** (confirmed).  A successful `delete_movie` removes exactly the
`(u, mid)` link, and deletes the Movie row for `mid` precisely when no
Favorite row of any user still references `mid` after the unlink; when some
link remains, the movies table is left unchanged (garbage collection at the
moment the last link is removed). -/
theorem c3_gc_on_last_unlink (st st2 : DBState) (u mid : Nat) (cf : Bool)
    (h : delete_movie st u mid cf = (true, st2)) :
    st2.favourites
      = st.favourites.filter (fun f => !(f.movie_id == mid && f.user_id == u)) ∧
    ((st2.favourites.filter (fun f => f.movie_id == mid)).isEmpty = true →
      st2.movies = st.movies.filter (fun mv => !(mv.id == mid))) ∧
    ((st2.favourites.filter (fun f => f.movie_id == mid)).isEmpty = false →
      st2.movies = st.movies) := by
  simp only [delete_movie] at h
  split at h
  · simp at h
  · split at h
    · simp at h
    · simp only [Prod.mk.injEq, true_and] at h
      subst h
      refine ⟨rfl, ?_, ?_⟩
      · intro hc
        have hc2 : ((st.favourites.filter
            (fun f => !(f.movie_id == mid && f.user_id == u))).filter
              (fun f => f.movie_id == mid)).isEmpty = true := hc
        exact if_pos hc2
      · intro hc
        have hc2 : ((st.favourites.filter
            (fun f => !(f.movie_id == mid && f.user_id == u))).filter
              (fun f => f.movie_id == mid)).isEmpty = false := hc
        exact if_neg (by rw [hc2]; exact Bool.false_ne_true)

theorem c3_witness :
    (bobFanStore.favourites
      = twoFanStore.favourites.filter (fun f => !(f.movie_id == 0 && f.user_id == 1))) ∧
    ((bobFanStore.favourites.filter (fun f => f.movie_id == 0)).isEmpty = true →
      bobFanStore.movies = twoFanStore.movies.filter (fun mv => !(mv.id == 0))) ∧
    ((bobFanStore.favourites.filter (fun f => f.movie_id == 0)).isEmpty = false →
      bobFanStore.movies = twoFanStore.movies) :=
  c3_gc_on_last_unlink twoFanStore bobFanStore 1 0 false (by decide)

/-- **C9** (confirmed).  On the fetch path, the Movie row `add_movie` inserts
takes its title, director, year and poster from the provider payload's
fields, not from the requested title argument `t`; the stored dedup key is
therefore the provider's canonical title, which may differ from the title the
user submitted (the witness runs `t = "inception"` against canonical
`"Inception"`). -/
theorem c9_provider_fields (st : DBState) (u : Nat) (t : String)
    (p : OmdbPayload) (fcf : Bool)
    (hmov : st.movies.filter (fun m => m.title == some t) = [])
    (hresp : (p.field_response == some "False") = false)
    (htitle : (p.field_title == none) = false) :
    (add_movie st u t (some p) false fcf).2.movies
      = st.movies ++ [newMovieRow st p] ∧
    (newMovieRow st p).title = p.field_title ∧
    (newMovieRow st p).director = p.field_director ∧
    (newMovieRow st p).year_of_release = p.field_year ∧
    (newMovieRow st p).poster_url = p.field_poster := by
  have hs : scalarOneOrNone (st.movies.filter (fun m => m.title == some t))
      = some none := scalarOneOrNone_eq_some_none.mpr hmov
  have hc : (false || (newMovieRow st p).title == none) = false := by
    simp only [Bool.false_or, newMovieRow]
    exact htitle
  rw [add_movie_eq_of_miss_inserted hs hresp hc, link_favourite_movies_unchanged]
  exact ⟨rfl, rfl, rfl, rfl, rfl⟩

theorem c9_witness :
    (add_movie aliceStore 1 "inception" (some inceptionPayload) false false).2.movies
      = aliceStore.movies ++ [newMovieRow aliceStore inceptionPayload] ∧
    (newMovieRow aliceStore inceptionPayload).title = some "Inception" ∧
    (newMovieRow aliceStore inceptionPayload).title ≠ some "inception" :=
  ⟨(c9_provider_fields aliceStore 1 "inception" inceptionPayload false
      (by decide) (by decide) (by decide)).1, by decide, by decide⟩

/-- **C10** (confirmed).  The rename route handler ignores `user_id` entirely:
two requests differing only in `user_id` but sharing `movie_id` and
`new_title` perform the identical store update and return the identical
response, so a rename is never scoped to the requesting user's favourites. -/
theorem c10_update_ignores_user (st : DBState) (u1 u2 mid : Nat)
    (new_title : Option String) (cf : Bool) :
    update_post st u1 mid new_title cf = update_post st u2 mid new_title cf := rfl

/-- **C8 counterexample**.  The claim says an empty name is rejected with 400
and no User row inserted, but `data.get('name')` only compares against
`None`: posting `{"name": ""}` returns `{'status': 'success'}, 200` and
inserts a User row with the empty name. -/
theorem c8_counterexample :
    users_post aliceStore (some "") false
      = (HttpResponse.jsonSuccess,
         { users := [⟨1, "Alice"⟩, ⟨2, ""⟩]
           movies := []
           favourites := []
           next_user_id := 3
           next_movie_id := 0 }) := rfl

/-- **C8 as amended**.  Only a missing `name` key is rejected at the boundary
with HTTP 400 and no insert; any present name — the empty string included —
leads to exactly one insert attempt, and a store failure is reported as a
soft `{'status': 'error'}, 200` response with no retry and no row written. -/
theorem c8_users_validation (st : DBState) (name : String) (cf : Bool) :
    users_post st none cf = (HttpResponse.badRequest, st) ∧
    users_post st (some name) false
      = (HttpResponse.jsonSuccess,
         { st with
             users := st.users ++ [⟨st.next_user_id, name⟩]
             next_user_id := st.next_user_id + 1 }) ∧
    users_post st (some name) true = (HttpResponse.jsonErr, st) :=
  ⟨rfl, rfl, rfl⟩

/-- **C2 counterexample**.  The claim says every Coordinator write executes in
a single transaction with no partial commit visible, and in particular that
when `add_movie` inserts a new Movie row and the favourite-link insert then
fails, everything is rolled back leaving no Movie row.  In the code the new
Movie row is committed on its own (line 132) before the link is attempted:
with the link commit failing, the operation reports failure yet the Movie row
remains. -/
theorem c2_counterexample :
    (add_movie aliceStore 1 "Inception" (some inceptionPayload) false true).1
      = AddOutcome.err ∧
    (add_movie aliceStore 1 "Inception" (some inceptionPayload) false true).2.movies
      = [inceptionMovie] ∧
    (add_movie aliceStore 1 "Inception" (some inceptionPayload) false true).2.favourites
      = [] :=
  ⟨rfl, rfl, rfl⟩

/-- **C2 as amended**.  `add_movie` commits a newly fetched Movie row in its
own transaction before attempting the Favorite link: when the link insert
fails, the operation reports failure and writes no Favorite row, but the
already-committed Movie row remains visible (partial commit).  The other
write operations commit once per operation. -/
theorem c2_partial_commit (st : DBState) (u : Nat) (t : String) (p : OmdbPayload)
    (hmov : st.movies.filter (fun m => m.title == some t) = [])
    (hresp : (p.field_response == some "False") = false)
    (htitle : (p.field_title == none) = false)
    (hfav : st.favourites.filter
        (fun f => f.user_id == u && f.movie_id == st.next_movie_id) = []) :
    add_movie st u t (some p) false true
      = (AddOutcome.err,
         { st with
             movies := st.movies ++ [newMovieRow st p]
             next_movie_id := st.next_movie_id + 1 }) := by
  have hs : scalarOneOrNone (st.movies.filter (fun m => m.title == some t))
      = some none := scalarOneOrNone_eq_some_none.mpr hmov
  have hc : (false || (newMovieRow st p).title == none) = false := by
    simp only [Bool.false_or, newMovieRow]
    exact htitle
  rw [add_movie_eq_of_miss_inserted hs hresp hc]
  have hs2 : scalarOneOrNone
      (({ st with
            movies := st.movies ++ [newMovieRow st p]
            next_movie_id := st.next_movie_id + 1 } : DBState).favourites.filter
        (fun f => f.user_id == u && f.movie_id == (newMovieRow st p).id))
      = some none := by
    apply scalarOneOrNone_eq_some_none.mpr
    simpa [newMovieRow] using hfav
  rw [link_favourite_eq_of_miss hs2]
  simp

theorem c2_witness :
    add_movie aliceStore 1 "Inception" (some inceptionPayload) false true
      = (AddOutcome.err,
         { aliceStore with
             movies := aliceStore.movies ++ [newMovieRow aliceStore inceptionPayload]
             next_movie_id := aliceStore.next_movie_id + 1 }) :=
  c2_partial_commit aliceStore 1 "Inception" inceptionPayload
    (by decide) (by decide) (by decide) (by decide)

/-- **C7** (confirmed).  With the store not failing, `update_movie` succeeds
exactly when a Movie row with the given id exists (zero rows affected is
treated as not-found failure); on success the title is replaced
unconditionally — no dedup check against other movies sharing the new title
enters the success condition — and the new title is visible via `get_movies`
(`ListUserMovies`) to every user who favorited that movie. -/
theorem c7_rename (st : DBState) (mid : Nat) (new_title : String) :
    ((update_movie st mid new_title false).1 = true ↔
      ∃ mv ∈ st.movies, mv.id = mid) ∧
    ((update_movie st mid new_title false).1 = true →
      (update_movie st mid new_title false).2.movies
        = st.movies.map
            (fun mv => if mv.id == mid then { mv with title := some new_title } else mv)) ∧
    (∀ u : Nat, (update_movie st mid new_title false).1 = true →
      (⟨u, mid⟩ : FavouriteMovie) ∈ st.favourites →
      ∃ mv ∈ get_movies (update_movie st mid new_title false).2 u,
        mv.id = mid ∧ mv.title = some new_title) := by
  rcases hfe : st.movies.filter (fun m => m.id == mid) with _ | ⟨x, xs⟩
  · -- no row with that id: zero rows affected, reported as failure
    have hres : update_movie st mid new_title false = (false, st) := by
      unfold update_movie
      rw [hfe]
      simp
    rw [hres]
    refine ⟨⟨fun hcon => absurd hcon Bool.false_ne_true, ?_⟩,
      fun hcon => absurd hcon Bool.false_ne_true,
      fun u hcon _ => absurd hcon Bool.false_ne_true⟩
    rintro ⟨mv, hmem, hid⟩
    have hmf : mv ∈ st.movies.filter (fun m => m.id == mid) :=
      List.mem_filter.mpr ⟨hmem, by simp [hid]⟩
    rw [hfe] at hmf
    exact absurd hmf (List.not_mem_nil _)
  · -- a row exists: the UPDATE rewrites every row with that id, unconditionally
    have hres : update_movie st mid new_title false
        = (true, { st with movies := (st.movies.map
            (fun m => if m.id == mid then { m with title := some new_title } else m)) }) := by
      unfold update_movie
      rw [hfe]
      simp
    rw [hres]
    have hx : x ∈ st.movies.filter (fun m => m.id == mid) := by
      rw [hfe]
      exact List.mem_cons_self x xs
    obtain ⟨hmemx, hpredx⟩ := List.mem_filter.mp hx
    refine ⟨⟨fun _ => ⟨x, hmemx, by simpa using hpredx⟩, fun _ => rfl⟩,
      fun _ => rfl, ?_⟩
    intro u _ hfavmem
    refine ⟨{ x with title := some new_title }, ?_, by simpa using hpredx, rfl⟩
    unfold get_movies
    rw [List.mem_mergeSort]
    apply List.mem_flatMap.mpr
    refine ⟨⟨u, mid⟩, List.mem_filter.mpr ⟨hfavmem, by simp⟩, ?_⟩
    apply List.mem_filter.mpr
    constructor
    · apply List.mem_map.mpr
      exact ⟨x, hmemx, if_pos hpredx⟩
    · exact hpredx

theorem c7_witness :
    (update_movie inceptionStore 0 "Tenet" false).1 = true ∧
    ∃ mv ∈ get_movies (update_movie inceptionStore 0 "Tenet" false).2 1,
      mv.id = 0 ∧ mv.title = some "Tenet" := by
  have hc := c7_rename inceptionStore 0 "Tenet"
  have hsucc : (update_movie inceptionStore 0 "Tenet" false).1 = true :=
    hc.1.mpr ⟨inceptionMovie, by decide, rfl⟩
  exact ⟨hsucc, hc.2.2 1 hsucc (by decide)⟩

/-- A filter of a duplicate-free list whose survivors are all equal to `a` is
either empty or exactly `[a]`. -/
theorem filter_eq_nil_or_singleton {α : Type} {l : List α} {p : α → Bool} {a : α}
    (hnd : l.Nodup) (hall : ∀ x ∈ l.filter p, x = a) :
    l.filter p = [] ∨ l.filter p = [a] := by
  have hndf : (l.filter p).Nodup := hnd.filter p
  rcases hfe : l.filter p with _ | ⟨x, _ | ⟨y, ys⟩⟩
  · exact Or.inl rfl
  · have hx : x = a := hall x (by rw [hfe]; exact List.mem_singleton.mpr rfl)
    exact Or.inr (by rw [hx])
  · exfalso
    rw [hfe] at hndf
    have hx : x = a := hall x (by rw [hfe]; exact List.mem_cons_self x (y :: ys))
    have hy : y = a := hall y
      (by rw [hfe]; exact List.mem_cons_of_mem x (List.mem_cons_self y ys))
    have hmem : x ∈ y :: ys := by
      rw [hx, hy]
      exact List.mem_cons_self a ys
    exact (List.nodup_cons.mp hndf).1 hmem

/-- **C1 counterexample**.  The claim quantifies over every requested title
`t`.  Running it with `t = "inception"` while the provider's canonical
`Title` is `"Inception"`: the first `add_movie` succeeds, but a second
identical call misses the exact-title dedup lookup (the stored title is the
canonical one), fetches again and inserts a second Movie row and a second
Favorite row — contradicting "writes no new Favorite row and no new Movie
row". -/
theorem c1_counterexample :
    (add_movie aliceStore 1 "inception" (some inceptionPayload) false false).1
      = AddOutcome.ok (newMovieRow aliceStore inceptionPayload) ∧
    ((add_movie
        ((add_movie aliceStore 1 "inception" (some inceptionPayload) false false).2)
        1 "inception" (some inceptionPayload) false false).2).movies.length = 2 ∧
    ((add_movie
        ((add_movie aliceStore 1 "inception" (some inceptionPayload) false false).2)
        1 "inception" (some inceptionPayload) false false).2).favourites.length = 2 :=
  ⟨rfl, rfl, rfl⟩

/-- **C1 as amended**.  After a successful `add_movie(u, t)` whose returned
movie is stored under exactly the requested title `t` (true on the reuse
path, and on the fetch path whenever the provider's canonical title equals
`t`), a second `add_movie(u, t)` — with any fetcher outcome and any injected
store failures — succeeds, returns the same already-linked Movie row,
changes nothing, and the store holds exactly one Movie row titled `t` and
exactly one `Favorite(u, m)` row. -/
theorem c1_repeat_add_idempotent (st0 st1 : DBState) (u : Nat) (t : String)
    (fetch fetch2 : Option OmdbPayload) (mcf fcf mcf2 fcf2 : Bool) (m : Movie)
    (h : add_movie st0 u t fetch mcf fcf = (AddOutcome.ok m, st1))
    (ht : m.title = some t) :
    add_movie st1 u t fetch2 mcf2 fcf2 = (AddOutcome.ok m, st1) ∧
    (st1.movies.filter (fun x => x.title == some t)).length = 1 ∧
    (st1.favourites.filter (fun f => f.user_id == u && f.movie_id == m.id)).length
      = 1 := by
  obtain ⟨hmovf, hfavf, -, -⟩ := add_movie_ok_state h ht
  have hs1 : scalarOneOrNone (st1.movies.filter (fun x => x.title == some t))
      = some (some m) := scalarOneOrNone_eq_some_some.mpr hmovf
  have hs2 : scalarOneOrNone (st1.favourites.filter
      (fun f => f.user_id == u && f.movie_id == m.id))
      = some (some ⟨u, m.id⟩) := scalarOneOrNone_eq_some_some.mpr hfavf
  refine ⟨?_, by rw [hmovf]; rfl, by rw [hfavf]; rfl⟩
  rw [add_movie_eq_of_found hs1, link_favourite_eq_of_found hs2]

theorem c1_witness :
    add_movie inceptionStore 1 "Inception" (some inceptionPayload) false false
      = (AddOutcome.ok inceptionMovie, inceptionStore) ∧
    (inceptionStore.movies.filter (fun x => x.title == some "Inception")).length
      = 1 ∧
    (inceptionStore.favourites.filter
      (fun f => f.user_id == 1 && f.movie_id == inceptionMovie.id)).length = 1 :=
  c1_repeat_add_idempotent aliceStore inceptionStore 1 "Inception"
    (some inceptionPayload) (some inceptionPayload) false false false false
    inceptionMovie (by decide) (by decide)

/-- **C4 counterexample**.  With requested title `"inception"` and canonical
provider title `"Inception"`, a second user's `add_movie` after the first
user's successful one does not find the existing row by exact title: with
the fetcher unavailable it fails outright (so an external call is required,
contradicting "makes no external Metadata Fetcher call"), and with the
fetcher available it inserts a second Movie row (contradicting "exactly one
Movie row"). -/
theorem c4_counterexample :
    (add_movie aliceBobStore 1 "inception" (some inceptionPayload) false false).1
      = AddOutcome.ok (newMovieRow aliceBobStore inceptionPayload) ∧
    add_movie
        ((add_movie aliceBobStore 1 "inception" (some inceptionPayload) false false).2)
        2 "inception" none false false
      = (AddOutcome.err,
         (add_movie aliceBobStore 1 "inception" (some inceptionPayload) false false).2) ∧
    ((add_movie
        ((add_movie aliceBobStore 1 "inception" (some inceptionPayload) false false).2)
        2 "inception" (some inceptionPayload) false false).2).movies.length = 2 :=
  ⟨rfl, rfl, rfl⟩

/-- **C4 as amended**.  After a successful `add_movie(u1, t)` whose returned
movie `m` is stored under exactly the requested title `t`, and starting from
a store whose favourites table is duplicate-free, `add_movie(u2, t)` for a
different user `u2` (link commit succeeding, any fetcher outcome — the
computation never consults it, i.e. no external call) finds the existing row
by exact title, returns the same Movie row, inserts no Movie row, and the
store ends with exactly one Movie row titled `t` and one Favorite row for
each of `u1` and `u2` on `m`. -/
theorem c4_second_user_shares_row (st0 st1 : DBState) (u1 u2 : Nat) (t : String)
    (fetch fetch2 : Option OmdbPayload) (mcf fcf mcf2 : Bool) (m : Movie)
    (hne : u1 ≠ u2)
    (hnd : st0.favourites.Nodup)
    (h : add_movie st0 u1 t fetch mcf fcf = (AddOutcome.ok m, st1))
    (ht : m.title = some t) :
    ∃ st2 : DBState,
      add_movie st1 u2 t fetch2 mcf2 false = (AddOutcome.ok m, st2) ∧
      st2.movies = st1.movies ∧
      (st2.movies.filter (fun x => x.title == some t)).length = 1 ∧
      (st2.favourites.filter
        (fun f => f.user_id == u1 && f.movie_id == m.id)).length = 1 ∧
      (st2.favourites.filter
        (fun f => f.user_id == u2 && f.movie_id == m.id)).length = 1 := by
  obtain ⟨hmovf, hfavf1, hdisj, -⟩ := add_movie_ok_state h ht
  have hs1 : scalarOneOrNone (st1.movies.filter (fun x => x.title == some t))
      = some (some m) := scalarOneOrNone_eq_some_some.mpr hmovf
  have hbne : (u2 == u1) = false := beq_eq_false_iff_ne.mpr (Ne.symm hne)
  -- the favourites table stays duplicate-free after the first call
  have hnd1 : st1.favourites.Nodup := by
    rcases hdisj with hsame | ⟨happ, hemp⟩
    · rw [hsame]
      exact hnd
    · rw [happ]
      refine List.Nodup.append hnd (List.nodup_singleton _) ?_
      intro a ha hb
      rw [List.mem_singleton] at hb
      subst hb
      have hmem : (⟨u1, m.id⟩ : FavouriteMovie)
          ∈ st0.favourites.filter (fun f => f.user_id == u1 && f.movie_id == m.id) :=
        List.mem_filter.mpr ⟨ha, by simp⟩
      rw [hemp] at hmem
      exact absurd hmem (List.not_mem_nil _)
  have hall : ∀ x ∈ st1.favourites.filter
      (fun f => f.user_id == u2 && f.movie_id == m.id),
      x = (⟨u2, m.id⟩ : FavouriteMovie) := by
    intro x hx
    exact fav_eq_of_pred (List.mem_filter.mp hx).2
  rcases filter_eq_nil_or_singleton hnd1 hall with hcase | hcase
  · -- u2 had no link yet: one link row is inserted
    refine ⟨{ st1 with favourites := st1.favourites ++ [⟨u2, m.id⟩] },
      ?_, rfl, ?_, ?_, ?_⟩
    · rw [add_movie_eq_of_found hs1,
        link_favourite_eq_of_miss (scalarOneOrNone_eq_some_none.mpr hcase)]
      simp
    · simpa using congrArg List.length hmovf
    · show ((st1.favourites ++ [(⟨u2, m.id⟩ : FavouriteMovie)]).filter
        (fun f => f.user_id == u1 && f.movie_id == m.id)).length = 1
      rw [List.filter_append, hfavf1]
      simp [hbne]
    · show ((st1.favourites ++ [(⟨u2, m.id⟩ : FavouriteMovie)]).filter
        (fun f => f.user_id == u2 && f.movie_id == m.id)).length = 1
      rw [List.filter_append, hcase]
      simp
  · -- u2 already linked: idempotent reuse, nothing written
    refine ⟨st1, ?_, rfl, ?_, ?_, ?_⟩
    · rw [add_movie_eq_of_found hs1,
        link_favourite_eq_of_found (scalarOneOrNone_eq_some_some.mpr hcase)]
    · simpa using congrArg List.length hmovf
    · simp [hfavf1]
    · simp [hcase]

theorem c4_witness : ∃ st2 : DBState,
    add_movie inceptionStore 2 "Inception" (some inceptionPayload) false false
      = (AddOutcome.ok inceptionMovie, st2) ∧
    st2.movies = inceptionStore.movies ∧
    (st2.movies.filter (fun x => x.title == some "Inception")).length = 1 ∧
    (st2.favourites.filter
      (fun f => f.user_id == 1 && f.movie_id == inceptionMovie.id)).length = 1 ∧
    (st2.favourites.filter
      (fun f => f.user_id == 2 && f.movie_id == inceptionMovie.id)).length = 1 :=
  c4_second_user_shares_row aliceStore inceptionStore 1 2 "Inception"
    (some inceptionPayload) (some inceptionPayload) false false false
    inceptionMovie (by decide) (by decide) (by decide) (by decide)

end Cinephile
